import Mathlib

/-!
Verification of the core payoff/break-even engine of the options strategy
backtester (src/Option_trading.py).  The two engine functions,
`calculate_payoff` (lines 103-199) and `calculate_break_even`
(lines 202-286), are embedded shallowly over exact rationals: NumPy's
vectorized arithmetic is pointwise, so a payoff curve is a function of the
underlying price mapped over the price grid, and the Python exceptions
(`ValueError` from the leg-count guard, `ValueError` in the Bear Call
Spread solver branch, `IndexError` from positional list indexing) are made
explicit through `Except`.
-/

namespace OptionTrading

/-- Errors the Python engine can raise: the leg-count `ValueError`
(whose message names the strategy and the required count), the
`ValueError` raised in the Bear Call Spread break-even branch when fewer
than two premiums are supplied, and `IndexError` from list indexing. -/
inductive Err where
  | invalidLegCount (strategy : String) (required : Nat)
  | bearCallPremiums
  | indexError
deriving DecidableEq

/-- One entry of the list returned by `calculate_break_even`: either a
numeric break-even price, or one of the two string sentinels the Python
code returns, `"Avg Stock Price Required"` and `"N/A"`. -/
inductive BEEntry where
  | price (p : ℚ)
  | avgRequired
  | na
deriving DecidableEq

/-- The guard at the top of `calculate_payoff` (lines 105-110): an
if/elif chain over the strategy name that inspects only
`len(strike_prices)` and raises `ValueError` naming the strategy and the
required leg count. -/
def checkLegs (strategy : String) (strike_prices : List ℚ) : Except Err Unit :=
  if (strategy = "Iron Condor" ∨ strategy = "Iron Butterfly") ∧ strike_prices.length < 4 then
    .error (.invalidLegCount strategy 4)
  else if (strategy = "Bull Put Spread" ∨ strategy = "Bear Call Spread" ∨ strategy = "Collar")
      ∧ strike_prices.length < 2 then
    .error (.invalidLegCount strategy 2)
  else if (strategy = "Long Straddle" ∨ strategy = "Short Straddle" ∨ strategy = "Long Strangle"
      ∨ strategy = "Short Strangle") ∧ strike_prices.length < 2 then
    .error (.invalidLegCount strategy 2)
  else
    .ok ()

/-- The per-leg accumulation loop of `calculate_payoff` (lines 111-115):
for the i-th strike, `positions[i]` selects a long-call or long-put term
built from `premiums[i]`; any other string adds nothing; an out-of-range
index is Python's `IndexError`.  The accumulated curve is returned as a
function of the underlying price. -/
def legLoop (strike_prices premiums : List ℚ) (positions : List String) :
    Except Err (ℚ → ℚ) :=
  go 0 strike_prices
where
  go : Nat → List ℚ → Except Err (ℚ → ℚ)
    | _, [] => .ok (fun _ => 0)
    | i, K :: rest =>
      match positions.get? i with
      | none => .error .indexError
      | some pos =>
        if pos = "Call" then
          match premiums.get? i with
          | none => .error .indexError
          | some p =>
            match go (i + 1) rest with
            | .error e => .error e
            | .ok acc => .ok (fun S => acc S + (max (S - K) 0 - p))
        else if pos = "Put" then
          match premiums.get? i with
          | none => .error .indexError
          | some p =>
            match go (i + 1) rest with
            | .error e => .error e
            | .ok acc => .ok (fun S => acc S + (max (K - S) 0 - p))
        else
          go (i + 1) rest

/-- The strategy-dispatch chain of `calculate_payoff` (lines 117-198).
Every recognised branch overwrites the accumulated per-leg payoff `base`
with its own closed formula; Long Call / Long Put, unknown names, and the
stock-linked strategies called without an average stock price fall
through, keeping `base`.  Branch bodies index `strike_prices` and
`premiums` positionally, so short lists are `IndexError`s. -/
def branchFun (strategy : String) (strike_prices premiums : List ℚ)
    (avg_stock_price : Option ℚ) (base : ℚ → ℚ) : Except Err (ℚ → ℚ) :=
  if strategy = "Covered Call" ∧ avg_stock_price.isSome then
    match strike_prices, premiums, avg_stock_price with
    | K0 :: _, p0 :: _, some a => .ok (fun S => (S - a) + min 0 (K0 - S) + p0)
    | _, _, _ => .error .indexError
  else if strategy = "Protective Put" ∧ avg_stock_price.isSome then
    match strike_prices, premiums, avg_stock_price with
    | K0 :: _, p0 :: _, some a => .ok (fun S => (S - a) + max (K0 - S) 0 - p0)
    | _, _, _ => .error .indexError
  else if strategy = "Iron Condor" then
    match strike_prices, premiums with
    | K0 :: K1 :: K2 :: K3 :: _, p0 :: p1 :: p2 :: p3 :: _ =>
      .ok (fun S => (-(max 0 (S - K0)) + p0) + (max 0 (S - K1) - p1)
        + (-(max 0 (K2 - S)) + p2) + (max 0 (K3 - S) - p3))
    | _, _ => .error .indexError
  else if strategy = "Bull Put Spread" then
    match strike_prices, premiums with
    | K0 :: K1 :: _, p0 :: p1 :: _ =>
      .ok (fun S => (max 0 (K1 - S) - p1) - (max 0 (K0 - S) - p0))
    | _, _ => .error .indexError
  else if strategy = "Bear Call Spread" then
    match strike_prices, premiums with
    | K0 :: K1 :: _, p0 :: p1 :: _ =>
      .ok (fun S => (max 0 (S - K1) - p1) + (min 0 (K0 - S) + p0))
    | _, _ => .error .indexError
  else if strategy = "Long Straddle" then
    match strike_prices, premiums with
    | K0 :: _, p0 :: p1 :: _ =>
      .ok (fun S => (max (S - K0) 0 - p0) + (max (K0 - S) 0 - p1))
    | _, _ => .error .indexError
  else if strategy = "Short Straddle" then
    match strike_prices, premiums with
    | K0 :: _, p0 :: p1 :: _ =>
      .ok (fun S => (min 0 (S - K0) + p0) + (min 0 (K0 - S) + p1))
    | _, _ => .error .indexError
  else if strategy = "Long Strangle" then
    match strike_prices, premiums with
    | K0 :: K1 :: _, p0 :: p1 :: _ =>
      .ok (fun S => (max (S - K0) 0 - p0) + (max (K1 - S) 0 - p1))
    | _, _ => .error .indexError
  else if strategy = "Short Strangle" then
    match strike_prices, premiums with
    | K0 :: K1 :: _, p0 :: p1 :: _ =>
      .ok (fun S => (-(max 0 (S - K0)) + p0) + (-(max 0 (K1 - S)) + p1))
    | _, _ => .error .indexError
  else if strategy = "Iron Butterfly" then
    match strike_prices, premiums with
    | K0 :: K1 :: K2 :: K3 :: _, p0 :: p1 :: p2 :: p3 :: _ =>
      .ok (fun S => (-(max 0 (S - K2)) + p2) + (-(max 0 (K1 - S)) + p1)
        + (max 0 (S - K3) - p3) + (max 0 (K0 - S) - p0))
    | _, _ => .error .indexError
  else if strategy = "Butterfly Spread" then
    match strike_prices, premiums with
    | K0 :: K1 :: K2 :: _, p0 :: p1 :: p2 :: _ =>
      .ok (fun S => (max (S - K0) 0 - p0) + 2 * (min 0 (K1 - S) + p1)
        + (max (S - K2) 0 - p2))
    | _, _ => .error .indexError
  else if strategy = "Collar" ∧ avg_stock_price.isSome then
    match strike_prices, premiums, avg_stock_price with
    | K0 :: K1 :: _, p0 :: p1 :: _, some a =>
      .ok (fun S => (S - a) + (max 0 (K0 - S) - p0) + (-(max 0 (S - K1)) + p1))
    | _, _, _ => .error .indexError
  else
    .ok base

/-- Shallow embedding of `calculate_payoff` (lines 103-199): run the
leg-count guard, accumulate the per-leg loop, apply the strategy branch
(which may overwrite the accumulation), and evaluate the resulting curve
on the price grid. -/
def calculate_payoff (strategy : String) (stock_prices : List ℚ)
    (strike_prices premiums : List ℚ) (positions : List String)
    (avg_stock_price : Option ℚ := none) : Except Err (List ℚ) :=
  match checkLegs strategy strike_prices with
  | .error e => .error e
  | .ok _ =>
    match legLoop strike_prices premiums positions with
    | .error e => .error e
    | .ok base =>
      match branchFun strategy strike_prices premiums avg_stock_price base with
      | .error e => .error e
      | .ok f => .ok (stock_prices.map f)

/-- Shallow embedding of `calculate_break_even` (lines 202-286): an
if/elif chain over the strategy name; each branch returns a closed-form
list of break-even entries, the stock-linked strategies return the
`"Avg Stock Price Required"` sentinel when the average stock price is
absent, and any other name returns the `"N/A"` sentinel. -/
def calculate_break_even (strategy : String) (strike_prices premiums : List ℚ)
    (avg_stock_price : Option ℚ := none) : Except Err (List BEEntry) :=
  if strategy = "Long Call" then
    match strike_prices, premiums with
    | K0 :: _, p0 :: _ => .ok [.price (K0 + p0)]
    | _, _ => .error .indexError
  else if strategy = "Long Put" then
    match strike_prices, premiums with
    | K0 :: _, p0 :: _ => .ok [.price (K0 - p0)]
    | _, _ => .error .indexError
  else if strategy = "Covered Call" then
    match avg_stock_price with
    | some a =>
      match premiums with
      | p0 :: _ => .ok [.price (a + p0)]
      | _ => .error .indexError
    | none => .ok [.avgRequired]
  else if strategy = "Protective Put" then
    match avg_stock_price with
    | some a =>
      match premiums with
      | p0 :: _ => .ok [.price (a - p0)]
      | _ => .error .indexError
    | none => .ok [.avgRequired]
  else if strategy = "Iron Condor" then
    match strike_prices, premiums with
    | K0 :: _ :: K2 :: _, p0 :: p1 :: p2 :: p3 :: _ =>
      .ok [.price (K2 - ((p0 + p2) - (p1 + p3))), .price (K0 + ((p0 + p2) - (p1 + p3)))]
    | _, _ => .error .indexError
  else if strategy = "Bull Put Spread" then
    match strike_prices, premiums with
    | K0 :: _, p0 :: p1 :: _ => .ok [.price (K0 - (p0 - p1))]
    | _, _ => .error .indexError
  else if strategy = "Bear Call Spread" then
    if premiums.length < 2 then .error .bearCallPremiums
    else
      match strike_prices, premiums with
      | K0 :: _, p0 :: p1 :: _ => .ok [.price (K0 + (p0 - p1))]
      | _, _ => .error .indexError
  else if strategy = "Long Straddle" then
    match strike_prices, premiums with
    | K0 :: _, p0 :: p1 :: _ =>
      .ok [.price (K0 - (p0 + p1)), .price (K0 + (p0 + p1))]
    | _, _ => .error .indexError
  else if strategy = "Short Straddle" then
    match strike_prices, premiums with
    | K0 :: _, p0 :: p1 :: _ =>
      .ok [.price (K0 - (p0 + p1)), .price (K0 + (p0 + p1))]
    | _, _ => .error .indexError
  else if strategy = "Long Strangle" then
    match strike_prices, premiums with
    | K0 :: K1 :: _, p0 :: p1 :: _ =>
      .ok [.price (K1 - (p0 + p1)), .price (K0 + (p0 + p1))]
    | _, _ => .error .indexError
  else if strategy = "Short Strangle" then
    match strike_prices, premiums with
    | K0 :: K1 :: _, p0 :: p1 :: _ =>
      .ok [.price (K1 - (p0 + p1)), .price (K0 + (p0 + p1))]
    | _, _ => .error .indexError
  else if strategy = "Butterfly Spread" then
    match strike_prices, premiums with
    | K0 :: _ :: K2 :: _, p0 :: p1 :: p2 :: _ =>
      .ok [.price (K0 + (p0 - 2 * p1 + p2)), .price (K2 - (p0 - 2 * p1 + p2))]
    | _, _ => .error .indexError
  else if strategy = "Iron Butterfly" then
    match strike_prices, premiums with
    | _ :: K1 :: _, p0 :: p1 :: p2 :: p3 :: _ =>
      .ok [.price (K1 - (p0 - p1 - p2 + p3)), .price (K1 + (p0 - p1 - p2 + p3))]
    | _, _ => .error .indexError
  else if strategy = "Collar" then
    match avg_stock_price with
    | some a =>
      match premiums with
      | p0 :: p1 :: _ => .ok [.price (a - p0), .price (a + p1)]
      | _ => .error .indexError
    | none => .ok [.avgRequired]
  else
    .ok [.na]

/-- The 14 strategy names of the fixed catalog (the keys of the
`STRATEGIES` table, which are exactly the names handled by the two
engine functions' dispatch chains). -/
def catalogNames : List String :=
  ["Long Call", "Long Put", "Covered Call", "Protective Put", "Iron Condor",
   "Bull Put Spread", "Bear Call Spread", "Long Straddle", "Short Straddle",
   "Long Strangle", "Short Strangle", "Butterfly Spread", "Iron Butterfly", "Collar"]

/-- Modelled from the spec: the Covered Call strategy's pure-option
component with the strategy's own (short) direction — a short call,
`min(0, strike - S) + premium` — which the spec's degraded-mode sentence
says the evaluator returns when the average stock price is absent. -/
def specCoveredCallOptionOnly (S K0 p0 : ℚ) : ℚ := min 0 (K0 - S) + p0

/-! Unfolding lemmas for the guard, the branch dispatch and the solver at
the list shapes and strategy names the development uses.  Each is
definitional: the string comparisons in the if-chains reduce. -/

lemma checkLegs_long_call (ks : List ℚ) : checkLegs "Long Call" ks = .ok () := rfl

lemma checkLegs_long_put (ks : List ℚ) : checkLegs "Long Put" ks = .ok () := rfl

lemma checkLegs_covered_call (ks : List ℚ) : checkLegs "Covered Call" ks = .ok () := rfl

lemma checkLegs_protective_put (ks : List ℚ) : checkLegs "Protective Put" ks = .ok () := rfl

lemma checkLegs_butterfly (ks : List ℚ) : checkLegs "Butterfly Spread" ks = .ok () := rfl

lemma checkLegs_iron_condor4 (K0 K1 K2 K3 : ℚ) :
    checkLegs "Iron Condor" [K0, K1, K2, K3] = .ok () := rfl

lemma checkLegs_iron_butterfly4 (K0 K1 K2 K3 : ℚ) :
    checkLegs "Iron Butterfly" [K0, K1, K2, K3] = .ok () := rfl

lemma checkLegs_bull_put2 (K0 K1 : ℚ) :
    checkLegs "Bull Put Spread" [K0, K1] = .ok () := rfl

lemma checkLegs_bear_call2 (K0 K1 : ℚ) :
    checkLegs "Bear Call Spread" [K0, K1] = .ok () := rfl

lemma checkLegs_collar2 (K0 K1 : ℚ) : checkLegs "Collar" [K0, K1] = .ok () := rfl

lemma checkLegs_long_straddle2 (K0 K1 : ℚ) :
    checkLegs "Long Straddle" [K0, K1] = .ok () := rfl

lemma checkLegs_short_straddle2 (K0 K1 : ℚ) :
    checkLegs "Short Straddle" [K0, K1] = .ok () := rfl

lemma checkLegs_long_strangle2 (K0 K1 : ℚ) :
    checkLegs "Long Strangle" [K0, K1] = .ok () := rfl

lemma checkLegs_short_strangle2 (K0 K1 : ℚ) :
    checkLegs "Short Strangle" [K0, K1] = .ok () := rfl

lemma branchFun_long_call (ks prems : List ℚ) (avg : Option ℚ) (base : ℚ → ℚ) :
    branchFun "Long Call" ks prems avg base = .ok base := rfl

lemma branchFun_long_put (ks prems : List ℚ) (avg : Option ℚ) (base : ℚ → ℚ) :
    branchFun "Long Put" ks prems avg base = .ok base := rfl

lemma branchFun_covered_call_none (ks prems : List ℚ) (base : ℚ → ℚ) :
    branchFun "Covered Call" ks prems none base = .ok base := rfl

lemma branchFun_protective_put_none (ks prems : List ℚ) (base : ℚ → ℚ) :
    branchFun "Protective Put" ks prems none base = .ok base := rfl

lemma branchFun_collar_none (ks prems : List ℚ) (base : ℚ → ℚ) :
    branchFun "Collar" ks prems none base = .ok base := rfl

lemma branchFun_covered_call_some (K0 : ℚ) (ks : List ℚ) (p0 : ℚ) (ps : List ℚ)
    (a : ℚ) (base : ℚ → ℚ) :
    branchFun "Covered Call" (K0 :: ks) (p0 :: ps) (some a) base
      = .ok (fun S => (S - a) + min 0 (K0 - S) + p0) := rfl

lemma branchFun_protective_put_some (K0 : ℚ) (ks : List ℚ) (p0 : ℚ) (ps : List ℚ)
    (a : ℚ) (base : ℚ → ℚ) :
    branchFun "Protective Put" (K0 :: ks) (p0 :: ps) (some a) base
      = .ok (fun S => (S - a) + max (K0 - S) 0 - p0) := rfl

lemma branchFun_iron_condor (K0 K1 K2 K3 : ℚ) (ks : List ℚ) (p0 p1 p2 p3 : ℚ)
    (ps : List ℚ) (avg : Option ℚ) (base : ℚ → ℚ) :
    branchFun "Iron Condor" (K0 :: K1 :: K2 :: K3 :: ks) (p0 :: p1 :: p2 :: p3 :: ps) avg base
      = .ok (fun S => (-(max 0 (S - K0)) + p0) + (max 0 (S - K1) - p1)
        + (-(max 0 (K2 - S)) + p2) + (max 0 (K3 - S) - p3)) := rfl

lemma branchFun_bull_put (K0 K1 : ℚ) (ks : List ℚ) (p0 p1 : ℚ) (ps : List ℚ)
    (avg : Option ℚ) (base : ℚ → ℚ) :
    branchFun "Bull Put Spread" (K0 :: K1 :: ks) (p0 :: p1 :: ps) avg base
      = .ok (fun S => (max 0 (K1 - S) - p1) - (max 0 (K0 - S) - p0)) := rfl

lemma branchFun_bear_call (K0 K1 : ℚ) (ks : List ℚ) (p0 p1 : ℚ) (ps : List ℚ)
    (avg : Option ℚ) (base : ℚ → ℚ) :
    branchFun "Bear Call Spread" (K0 :: K1 :: ks) (p0 :: p1 :: ps) avg base
      = .ok (fun S => (max 0 (S - K1) - p1) + (min 0 (K0 - S) + p0)) := rfl

lemma branchFun_long_straddle (K0 : ℚ) (ks : List ℚ) (p0 p1 : ℚ) (ps : List ℚ)
    (avg : Option ℚ) (base : ℚ → ℚ) :
    branchFun "Long Straddle" (K0 :: ks) (p0 :: p1 :: ps) avg base
      = .ok (fun S => (max (S - K0) 0 - p0) + (max (K0 - S) 0 - p1)) := rfl

lemma branchFun_short_straddle (K0 : ℚ) (ks : List ℚ) (p0 p1 : ℚ) (ps : List ℚ)
    (avg : Option ℚ) (base : ℚ → ℚ) :
    branchFun "Short Straddle" (K0 :: ks) (p0 :: p1 :: ps) avg base
      = .ok (fun S => (min 0 (S - K0) + p0) + (min 0 (K0 - S) + p1)) := rfl

lemma branchFun_long_strangle (K0 K1 : ℚ) (ks : List ℚ) (p0 p1 : ℚ) (ps : List ℚ)
    (avg : Option ℚ) (base : ℚ → ℚ) :
    branchFun "Long Strangle" (K0 :: K1 :: ks) (p0 :: p1 :: ps) avg base
      = .ok (fun S => (max (S - K0) 0 - p0) + (max (K1 - S) 0 - p1)) := rfl

lemma branchFun_short_strangle (K0 K1 : ℚ) (ks : List ℚ) (p0 p1 : ℚ) (ps : List ℚ)
    (avg : Option ℚ) (base : ℚ → ℚ) :
    branchFun "Short Strangle" (K0 :: K1 :: ks) (p0 :: p1 :: ps) avg base
      = .ok (fun S => (-(max 0 (S - K0)) + p0) + (-(max 0 (K1 - S)) + p1)) := rfl

lemma branchFun_iron_butterfly (K0 K1 K2 K3 : ℚ) (ks : List ℚ) (p0 p1 p2 p3 : ℚ)
    (ps : List ℚ) (avg : Option ℚ) (base : ℚ → ℚ) :
    branchFun "Iron Butterfly" (K0 :: K1 :: K2 :: K3 :: ks) (p0 :: p1 :: p2 :: p3 :: ps) avg base
      = .ok (fun S => (-(max 0 (S - K2)) + p2) + (-(max 0 (K1 - S)) + p1)
        + (max 0 (S - K3) - p3) + (max 0 (K0 - S) - p0)) := rfl

lemma branchFun_butterfly (K0 K1 K2 : ℚ) (ks : List ℚ) (p0 p1 p2 : ℚ) (ps : List ℚ)
    (avg : Option ℚ) (base : ℚ → ℚ) :
    branchFun "Butterfly Spread" (K0 :: K1 :: K2 :: ks) (p0 :: p1 :: p2 :: ps) avg base
      = .ok (fun S => (max (S - K0) 0 - p0) + 2 * (min 0 (K1 - S) + p1)
        + (max (S - K2) 0 - p2)) := rfl

lemma branchFun_collar_some (K0 K1 : ℚ) (ks : List ℚ) (p0 p1 : ℚ) (ps : List ℚ)
    (a : ℚ) (base : ℚ → ℚ) :
    branchFun "Collar" (K0 :: K1 :: ks) (p0 :: p1 :: ps) (some a) base
      = .ok (fun S => (S - a) + (max 0 (K0 - S) - p0) + (-(max 0 (S - K1)) + p1)) := rfl

/-- C4: Iron Condor scenario — with strikes [110, 115, 90, 85] (short call,
long call, short put, long put) and premiums [2, 1, 2, 1],
`calculate_break_even` returns exactly [88, 112] and `calculate_payoff`
at underlying price 100 equals 2. -/
theorem C4_iron_condor_scenario :
    calculate_break_even "Iron Condor" [110, 115, 90, 85] [2, 1, 2, 1] none
      = .ok [.price 88, .price 112] ∧
    calculate_payoff "Iron Condor" [100] [110, 115, 90, 85] [2, 1, 2, 1]
      ["Call", "Call", "Put", "Put"] none = .ok [2] := by
  constructor
  · simp [calculate_break_even]
    norm_num
  · simp [calculate_payoff, checkLegs_iron_condor4, branchFun_iron_condor, legLoop, legLoop.go]
    norm_num

/-- C1: the claimed cross-consistency of the two core functions fails on
the code: for Covered Call with strike 110, premium 5 and average stock
price 100, the solver returns the single break-even price 105, but the
evaluator at underlying price 105 returns payoff 10, not 0 (the third
conjunct shows the evaluator's actual root is at 95 = avg − premium,
demonstrating the solver's `avg + premium` formula is the slip). -/
theorem C1_cross_consistency_code_bug :
    calculate_break_even "Covered Call" [110] [5] (some 100) = .ok [.price 105] ∧
    calculate_payoff "Covered Call" [105] [110] [5] ["Call"] (some 100) = .ok [10] ∧
    calculate_payoff "Covered Call" [95] [110] [5] ["Call"] (some 100) = .ok [0] := by
  refine ⟨?_, ?_, ?_⟩
  · simp [calculate_break_even]
    norm_num
  · simp [calculate_payoff, checkLegs_covered_call, branchFun_covered_call_some,
      legLoop, legLoop.go]
    norm_num
  · simp [calculate_payoff, checkLegs_covered_call, branchFun_covered_call_some,
      legLoop, legLoop.go]
    norm_num

/-- C2 counterexample: the claim says every call whose arrays do not
match the strategy's required leg count (1 for Long Call) fails with the
leg-count error, but `calculate_payoff` for Long Call with two strikes
succeeds and returns a curve. -/
theorem C2_counterexample :
    calculate_payoff "Long Call" [100] [90, 95] [1, 1] ["Call", "Call"] none
      = .ok [13] := by
  simp [calculate_payoff, checkLegs_long_call, branchFun_long_call, legLoop, legLoop.go]
  norm_num

/-- C2 (amended): the leg-count guard of `calculate_payoff` checks only
the strikes array's length, only for Iron Condor / Iron Butterfly (fewer
than 4 raises the error naming the strategy and the count 4) and for
Bull Put Spread, Bear Call Spread, Collar and the four straddle/strangle
variants (fewer than 2 raises the error with count 2); the 1-leg
strategies and Butterfly Spread are not checked, and over-long arrays are
accepted.  In particular Iron Condor invoked with 2 strikes fails with
the leg-count error as the spec's scenario states. -/
theorem C2_amended_leg_guard :
    ∀ (ps ks prems : List ℚ) (pos : List String) (avg : Option ℚ),
      (ks.length < 4 →
        calculate_payoff "Iron Condor" ps ks prems pos avg
          = .error (.invalidLegCount "Iron Condor" 4) ∧
        calculate_payoff "Iron Butterfly" ps ks prems pos avg
          = .error (.invalidLegCount "Iron Butterfly" 4)) ∧
      (ks.length < 2 →
        calculate_payoff "Bull Put Spread" ps ks prems pos avg
          = .error (.invalidLegCount "Bull Put Spread" 2) ∧
        calculate_payoff "Bear Call Spread" ps ks prems pos avg
          = .error (.invalidLegCount "Bear Call Spread" 2) ∧
        calculate_payoff "Collar" ps ks prems pos avg
          = .error (.invalidLegCount "Collar" 2) ∧
        calculate_payoff "Long Straddle" ps ks prems pos avg
          = .error (.invalidLegCount "Long Straddle" 2) ∧
        calculate_payoff "Short Straddle" ps ks prems pos avg
          = .error (.invalidLegCount "Short Straddle" 2) ∧
        calculate_payoff "Long Strangle" ps ks prems pos avg
          = .error (.invalidLegCount "Long Strangle" 2) ∧
        calculate_payoff "Short Strangle" ps ks prems pos avg
          = .error (.invalidLegCount "Short Strangle" 2)) := by
  intro ps ks prems pos avg
  refine ⟨fun h => ⟨?_, ?_⟩, fun h => ⟨?_, ?_, ?_, ?_, ?_, ?_, ?_⟩⟩
  · unfold calculate_payoff checkLegs
    rw [if_pos ⟨Or.inl rfl, h⟩]
  · unfold calculate_payoff checkLegs
    rw [if_pos ⟨Or.inr rfl, h⟩]
  · unfold calculate_payoff checkLegs
    rw [if_neg (by simp), if_pos ⟨Or.inl rfl, h⟩]
  · unfold calculate_payoff checkLegs
    rw [if_neg (by simp), if_pos ⟨Or.inr (Or.inl rfl), h⟩]
  · unfold calculate_payoff checkLegs
    rw [if_neg (by simp), if_pos ⟨Or.inr (Or.inr rfl), h⟩]
  · unfold calculate_payoff checkLegs
    rw [if_neg (by simp), if_neg (by simp), if_pos ⟨Or.inl rfl, h⟩]
  · unfold calculate_payoff checkLegs
    rw [if_neg (by simp), if_neg (by simp), if_pos ⟨Or.inr (Or.inl rfl), h⟩]
  · unfold calculate_payoff checkLegs
    rw [if_neg (by simp), if_neg (by simp), if_pos ⟨Or.inr (Or.inr (Or.inl rfl)), h⟩]
  · unfold calculate_payoff checkLegs
    rw [if_neg (by simp), if_neg (by simp), if_pos ⟨Or.inr (Or.inr (Or.inr rfl)), h⟩]

/-- C2 witness: the amended guard behavior at the spec's own scenario —
Iron Condor called with 2 strikes fails with the leg-count error naming
the strategy and the count 4. -/
theorem C2_amended_leg_guard_witness :
    calculate_payoff "Iron Condor" [100] [90, 110] [1, 1] ["Call", "Put"] none
      = .error (.invalidLegCount "Iron Condor" 4) :=
  ((C2_amended_leg_guard [100] [90, 110] [1, 1] ["Call", "Put"] none).1 (by norm_num)).1

lemma checkLegs_not_guarded (s : String) (ks : List ℚ)
    (h1 : s ≠ "Iron Condor") (h2 : s ≠ "Iron Butterfly") (h3 : s ≠ "Bull Put Spread")
    (h4 : s ≠ "Bear Call Spread") (h5 : s ≠ "Collar") (h6 : s ≠ "Long Straddle")
    (h7 : s ≠ "Short Straddle") (h8 : s ≠ "Long Strangle") (h9 : s ≠ "Short Strangle") :
    checkLegs s ks = .ok () := by
  unfold checkLegs
  rw [if_neg (fun hc => hc.1.elim (fun h => h1 h) (fun h => h2 h)),
    if_neg (fun hc => hc.1.elim (fun h => h3 h)
      (fun h => h.elim (fun h => h4 h) (fun h => h5 h))),
    if_neg (fun hc => hc.1.elim (fun h => h6 h)
      (fun h => h.elim (fun h => h7 h)
        (fun h => h.elim (fun h => h8 h) (fun h => h9 h))))]

lemma branchFun_no_branch (s : String) (ks prems : List ℚ) (avg : Option ℚ)
    (base : ℚ → ℚ)
    (h1 : s ≠ "Covered Call") (h2 : s ≠ "Protective Put") (h3 : s ≠ "Iron Condor")
    (h4 : s ≠ "Bull Put Spread") (h5 : s ≠ "Bear Call Spread") (h6 : s ≠ "Long Straddle")
    (h7 : s ≠ "Short Straddle") (h8 : s ≠ "Long Strangle") (h9 : s ≠ "Short Strangle")
    (h10 : s ≠ "Iron Butterfly") (h11 : s ≠ "Butterfly Spread") (h12 : s ≠ "Collar") :
    branchFun s ks prems avg base = .ok base := by
  unfold branchFun
  rw [if_neg (fun hc => h1 hc.1), if_neg (fun hc => h2 hc.1), if_neg h3, if_neg h4,
    if_neg h5, if_neg h6, if_neg h7, if_neg h8, if_neg h9, if_neg h10, if_neg h11,
    if_neg (fun hc => h12 hc.1)]

/-- C3 counterexample: the claim says an unknown strategy name returns a
curve of zeros, but `calculate_payoff` for the unknown name "Foo" with one
Call leg (strike 100, premium 5) at price 120 returns the long-call
payoff 15, not 0. -/
theorem C3_counterexample :
    calculate_payoff "Foo" [120] [100] [5] ["Call"] none = .ok [15] ∧ (15 : ℚ) ≠ 0 := by
  constructor
  · rw [calculate_payoff, checkLegs_not_guarded "Foo" _ (by decide) (by decide) (by decide)
      (by decide) (by decide) (by decide) (by decide) (by decide) (by decide)]
    simp [legLoop, legLoop.go, branchFun_no_branch "Foo" _ _ _ _ (by decide) (by decide)
      (by decide) (by decide) (by decide) (by decide) (by decide) (by decide) (by decide)
      (by decide) (by decide) (by decide)]
    norm_num
  · norm_num

/-- C3 (amended): a strategy name outside the fixed catalog raises no
guard error and is handled by no branch, so `calculate_payoff` returns
the per-leg accumulation of `legLoop` (each Call/Put leg contributing its
long payoff); this is a curve of zeros exactly when no leg contributes,
e.g. for empty strikes/premiums/leg-kind lists. -/
theorem C3_amended_unknown_strategy :
    ∀ (s : String), s ∉ catalogNames →
      ∀ (ps ks prems : List ℚ) (pos : List String) (avg : Option ℚ),
        calculate_payoff s ps ks prems pos avg
          = Except.map (fun f => ps.map f) (legLoop ks prems pos) ∧
        calculate_payoff s ps [] [] [] avg = .ok (ps.map fun _ => 0) := by
  intro s hs ps ks prems pos avg
  simp only [catalogNames, List.mem_cons, List.not_mem_nil, or_false, not_or] at hs
  obtain ⟨h1, h2, h3, h4, h5, h6, h7, h8, h9, h10, h11, h12, h13, h14⟩ := hs
  constructor
  · rw [calculate_payoff, checkLegs_not_guarded s ks h5 h13 h6 h7 h14 h8 h9 h10 h11]
    rcases hll : legLoop ks prems pos with e | base
    · simp [Except.map]
    · simp [Except.map, branchFun_no_branch s ks prems avg base h3 h4 h5 h6 h7 h8 h9 h10
        h11 h13 h12 h14]
  · rw [calculate_payoff, checkLegs_not_guarded s [] h5 h13 h6 h7 h14 h8 h9 h10 h11]
    have hll : legLoop ([] : List ℚ) ([] : List ℚ) ([] : List String)
        = .ok (fun _ => 0) := rfl
    rw [hll]
    simp [branchFun_no_branch s [] [] avg _ h3 h4 h5 h6 h7 h8 h9 h10 h11 h13 h12 h14]

/-- C3 witness: the unknown name "Foo" with no legs returns the zero
curve without an error. -/
theorem C3_amended_unknown_strategy_witness :
    calculate_payoff "Foo" [120] [] [] [] none = .ok [0] := by
  have h := (C3_amended_unknown_strategy "Foo" (by decide) [120] [] [] [] none).2
  simpa using h

/-- C6 counterexample: the claim says the degraded (no average stock
price) curve consists of each option leg with the strategy's own
long/short direction; for Covered Call the strategy's option leg is a
short call, worth `min(0, 100 - 0) + 5 = 5` at price 0, but the code
returns the long-call value −5. -/
theorem C6_counterexample :
    calculate_payoff "Covered Call" [0] [100] [5] ["Call"] none = .ok [-5] ∧
    specCoveredCallOptionOnly 0 100 5 = 5 ∧ (-5 : ℚ) ≠ 5 := by
  refine ⟨?_, ?_, by norm_num⟩
  · simp [calculate_payoff, checkLegs_covered_call, branchFun_covered_call_none,
      legLoop, legLoop.go]
  · simp [specCoveredCallOptionOnly]

/-- C6 (amended): for Covered Call, Protective Put and Collar invoked
without an average stock price, `calculate_payoff` does not fail on that
account and returns exactly the per-leg accumulation of `legLoop`, which
treats every Call/Put leg as a long position (intrinsic value minus
premium) regardless of the strategy's own long/short direction. -/
theorem C6_amended_degraded_mode :
    (∀ (ps ks prems : List ℚ) (pos : List String),
      calculate_payoff "Covered Call" ps ks prems pos none
        = Except.map (fun f => ps.map f) (legLoop ks prems pos)) ∧
    (∀ (ps ks prems : List ℚ) (pos : List String),
      calculate_payoff "Protective Put" ps ks prems pos none
        = Except.map (fun f => ps.map f) (legLoop ks prems pos)) ∧
    (∀ (ps : List ℚ) (K0 K1 : ℚ) (ks prems : List ℚ) (pos : List String),
      calculate_payoff "Collar" ps (K0 :: K1 :: ks) prems pos none
        = Except.map (fun f => ps.map f) (legLoop (K0 :: K1 :: ks) prems pos)) := by
  refine ⟨fun ps ks prems pos => ?_, fun ps ks prems pos => ?_,
    fun ps K0 K1 ks prems pos => ?_⟩
  · rcases hll : legLoop ks prems pos with e | base <;>
      simp [calculate_payoff, checkLegs_covered_call, hll, branchFun_covered_call_none,
        Except.map]
  · rcases hll : legLoop ks prems pos with e | base <;>
      simp [calculate_payoff, checkLegs_protective_put, hll, branchFun_protective_put_none,
        Except.map]
  · have hc : checkLegs "Collar" (K0 :: K1 :: ks) = .ok () := by
      unfold checkLegs
      rw [if_neg (by simp), if_neg ?hlen, if_neg (by simp)]
      case hlen =>
        rintro ⟨-, hlen⟩
        simp at hlen
        omega
    rcases hll : legLoop (K0 :: K1 :: ks) prems pos with e | base <;>
      simp [calculate_payoff, hc, hll, branchFun_collar_none, Except.map]

/-- C7: `calculate_break_even` never throws for a missing average stock
price or an unrecognised strategy: Covered Call, Protective Put and
Collar without an average stock price return the
"Avg Stock Price Required" sentinel, and any name outside the listed set
returns the "N/A" sentinel, both distinct from numeric results. -/
theorem C7_solver_sentinels :
    (∀ (ks prems : List ℚ),
      calculate_break_even "Covered Call" ks prems none = .ok [.avgRequired] ∧
      calculate_break_even "Protective Put" ks prems none = .ok [.avgRequired] ∧
      calculate_break_even "Collar" ks prems none = .ok [.avgRequired]) ∧
    (∀ (s : String), s ∉ catalogNames →
      ∀ (ks prems : List ℚ) (avg : Option ℚ),
        calculate_break_even s ks prems avg = .ok [.na]) := by
  constructor
  · exact fun ks prems => ⟨rfl, rfl, rfl⟩
  · intro s hs ks prems avg
    simp only [catalogNames, List.mem_cons, List.not_mem_nil, or_false, not_or] at hs
    obtain ⟨h1, h2, h3, h4, h5, h6, h7, h8, h9, h10, h11, h12, h13, h14⟩ := hs
    unfold calculate_break_even
    rw [if_neg h1, if_neg h2, if_neg h3, if_neg h4, if_neg h5, if_neg h6, if_neg h7,
      if_neg h8, if_neg h9, if_neg h10, if_neg h11, if_neg h12, if_neg h13, if_neg h14]

/-- C7 witness: the sentinel behavior at concrete inputs — Covered Call
without an average stock price and the unknown name "Condor". -/
theorem C7_solver_sentinels_witness :
    calculate_break_even "Covered Call" [110] [5] none = .ok [.avgRequired] ∧
    calculate_break_even "Condor" [] [] none = .ok [.na] :=
  ⟨(C7_solver_sentinels.1 [110] [5]).1, C7_solver_sentinels.2 "Condor" (by decide) [] [] none⟩

/-- C8: Long/Short symmetry — for every price grid, strike pair, premium
pair and leg-kind list, the Long Straddle result of `calculate_payoff`
is the pointwise negation of the Short Straddle result on the same
inputs, and likewise Long Strangle against Short Strangle. -/
theorem C8_long_short_symmetry :
    ∀ (ps : List ℚ) (K0 K1 p0 p1 : ℚ) (pos : List String),
      calculate_payoff "Long Straddle" ps [K0, K1] [p0, p1] pos none
        = Except.map (List.map (fun x => -x))
            (calculate_payoff "Short Straddle" ps [K0, K1] [p0, p1] pos none) ∧
      calculate_payoff "Long Strangle" ps [K0, K1] [p0, p1] pos none
        = Except.map (List.map (fun x => -x))
            (calculate_payoff "Short Strangle" ps [K0, K1] [p0, p1] pos none) := by
  intro ps K0 K1 p0 p1 pos
  constructor
  · rcases hll : legLoop [K0, K1] [p0, p1] pos with e | base <;>
      simp only [calculate_payoff, checkLegs_long_straddle2, checkLegs_short_straddle2,
        hll, branchFun_long_straddle, branchFun_short_straddle, Except.map]
    rw [List.map_map]
    refine congrArg (fun f => Except.ok (List.map f ps)) (funext fun S => ?_)
    simp only [Function.comp]
    rcases le_total S K0 with h | h
    · rw [max_eq_right (by linarith), max_eq_left (by linarith),
        min_eq_right (by linarith), min_eq_left (by linarith)]
      ring
    · rw [max_eq_left (by linarith), max_eq_right (by linarith),
        min_eq_left (by linarith), min_eq_right (by linarith)]
      ring
  · rcases hll : legLoop [K0, K1] [p0, p1] pos with e | base <;>
      simp only [calculate_payoff, checkLegs_long_strangle2, checkLegs_short_strangle2,
        hll, branchFun_long_strangle, branchFun_short_strangle, Except.map]
    rw [List.map_map]
    refine congrArg (fun f => Except.ok (List.map f ps)) (funext fun S => ?_)
    simp only [Function.comp]
    rw [max_comm (S - K0) 0, max_comm (K1 - S) 0]
    ring

lemma payoff_long_call (S K p : ℚ) :
    calculate_payoff "Long Call" [S] [K] [p] ["Call"] none = .ok [max (S - K) 0 - p] := by
  simp [calculate_payoff, checkLegs_long_call, branchFun_long_call, legLoop, legLoop.go]

lemma payoff_long_put (S K p : ℚ) :
    calculate_payoff "Long Put" [S] [K] [p] ["Put"] none = .ok [max (K - S) 0 - p] := by
  simp [calculate_payoff, checkLegs_long_put, branchFun_long_put, legLoop, legLoop.go]

/-- C9: monotone tail law — the Long Call payoff of `calculate_payoff`
is non-decreasing in the underlying price on prices at or above the
strike and constantly −premium at or below it; mirrored, the Long Put
payoff is non-increasing at or below the strike and constantly −premium
at or above it. -/
theorem C9_monotone_tails :
    ∀ (K p S1 S2 v1 v2 w1 w2 : ℚ),
      calculate_payoff "Long Call" [S1] [K] [p] ["Call"] none = .ok [v1] →
      calculate_payoff "Long Call" [S2] [K] [p] ["Call"] none = .ok [v2] →
      calculate_payoff "Long Put" [S1] [K] [p] ["Put"] none = .ok [w1] →
      calculate_payoff "Long Put" [S2] [K] [p] ["Put"] none = .ok [w2] →
      (K ≤ S1 → S1 ≤ S2 → v1 ≤ v2) ∧ (S1 ≤ K → v1 = -p) ∧
      (S2 ≤ K → S1 ≤ S2 → w2 ≤ w1) ∧ (K ≤ S1 → w1 = -p) := by
  intro K p S1 S2 v1 v2 w1 w2 h1 h2 h3 h4
  rw [payoff_long_call] at h1 h2
  rw [payoff_long_put] at h3 h4
  simp only [Except.ok.injEq, List.cons.injEq, and_true] at h1 h2 h3 h4
  refine ⟨fun ha hb => ?_, fun ha => ?_, fun ha hb => ?_, fun ha => ?_⟩
  · rw [← h1, ← h2, max_eq_left (by linarith), max_eq_left (by linarith)]
    linarith
  · rw [← h1, max_eq_right (by linarith)]
    ring
  · rw [← h3, ← h4, max_eq_left (by linarith), max_eq_left (by linarith)]
    linarith
  · rw [← h3, max_eq_right (by linarith)]
    ring

/-- C9 witness: the tail law instantiated at strike 100, premium 5 and
prices 110 ≤ 120 (call leg values 5 ≤ 15) and at price 110 for the put
leg (value −5 = −premium). -/
theorem C9_monotone_tails_witness : (5 : ℚ) ≤ 15 ∧ (-5 : ℚ) = -(5 : ℚ) := by
  have h := C9_monotone_tails 100 5 110 120 5 15 (-5) (-5)
    (by rw [payoff_long_call]; norm_num) (by rw [payoff_long_call]; norm_num)
    (by rw [payoff_long_put]; norm_num) (by rw [payoff_long_put]; norm_num)
  exact ⟨h.1 (by norm_num) (by norm_num), h.2.2.2 (by norm_num)⟩

/-- C10 counterexample: the claim quantifies over arbitrary leg-kind
lists, but the positions argument does affect the outcome through the
per-leg loop's indexing — the same Iron Condor call succeeds with a
4-entry positions list and raises `IndexError` with an empty one, so the
two calls do not return equal curves. -/
theorem C10_counterexample :
    calculate_payoff "Iron Condor" [100] [110, 115, 90, 85] [2, 1, 2, 1]
      ["Put", "Put", "Call", "Call"] none = .ok [2] ∧
    calculate_payoff "Iron Condor" [100] [110, 115, 90, 85] [2, 1, 2, 1] [] none
      = .error .indexError := by
  constructor
  · simp [calculate_payoff, checkLegs_iron_condor4, branchFun_iron_condor, legLoop,
      legLoop.go]
    norm_num
  · simp [calculate_payoff, checkLegs_iron_condor4, legLoop, legLoop.go]

lemma branchFun_const_iron_condor (ks prems : List ℚ) (avg : Option ℚ) (b b' : ℚ → ℚ) :
    branchFun "Iron Condor" ks prems avg b = branchFun "Iron Condor" ks prems avg b' := rfl

lemma branchFun_const_bull_put (ks prems : List ℚ) (avg : Option ℚ) (b b' : ℚ → ℚ) :
    branchFun "Bull Put Spread" ks prems avg b
      = branchFun "Bull Put Spread" ks prems avg b' := rfl

lemma branchFun_const_bear_call (ks prems : List ℚ) (avg : Option ℚ) (b b' : ℚ → ℚ) :
    branchFun "Bear Call Spread" ks prems avg b
      = branchFun "Bear Call Spread" ks prems avg b' := rfl

lemma branchFun_const_long_straddle (ks prems : List ℚ) (avg : Option ℚ) (b b' : ℚ → ℚ) :
    branchFun "Long Straddle" ks prems avg b
      = branchFun "Long Straddle" ks prems avg b' := rfl

lemma branchFun_const_short_straddle (ks prems : List ℚ) (avg : Option ℚ) (b b' : ℚ → ℚ) :
    branchFun "Short Straddle" ks prems avg b
      = branchFun "Short Straddle" ks prems avg b' := rfl

lemma branchFun_const_long_strangle (ks prems : List ℚ) (avg : Option ℚ) (b b' : ℚ → ℚ) :
    branchFun "Long Strangle" ks prems avg b
      = branchFun "Long Strangle" ks prems avg b' := rfl

lemma branchFun_const_short_strangle (ks prems : List ℚ) (avg : Option ℚ) (b b' : ℚ → ℚ) :
    branchFun "Short Strangle" ks prems avg b
      = branchFun "Short Strangle" ks prems avg b' := rfl

lemma branchFun_const_butterfly (ks prems : List ℚ) (avg : Option ℚ) (b b' : ℚ → ℚ) :
    branchFun "Butterfly Spread" ks prems avg b
      = branchFun "Butterfly Spread" ks prems avg b' := rfl

lemma branchFun_const_iron_butterfly (ks prems : List ℚ) (avg : Option ℚ) (b b' : ℚ → ℚ) :
    branchFun "Iron Butterfly" ks prems avg b
      = branchFun "Iron Butterfly" ks prems avg b' := rfl

lemma branchFun_const_covered_call (ks prems : List ℚ) (a : ℚ) (b b' : ℚ → ℚ) :
    branchFun "Covered Call" ks prems (some a) b
      = branchFun "Covered Call" ks prems (some a) b' := rfl

lemma branchFun_const_protective_put (ks prems : List ℚ) (a : ℚ) (b b' : ℚ → ℚ) :
    branchFun "Protective Put" ks prems (some a) b
      = branchFun "Protective Put" ks prems (some a) b' := rfl

lemma branchFun_const_collar (ks prems : List ℚ) (a : ℚ) (b b' : ℚ → ℚ) :
    branchFun "Collar" ks prems (some a) b
      = branchFun "Collar" ks prems (some a) b' := rfl

lemma payoff_ok_of_branch_const (s : String) (ks prems : List ℚ) (avg : Option ℚ)
    (hconst : ∀ b b' : ℚ → ℚ, branchFun s ks prems avg b = branchFun s ks prems avg b') :
    ∀ (ps : List ℚ) (pos1 pos2 : List String) (c1 c2 : List ℚ),
      calculate_payoff s ps ks prems pos1 avg = .ok c1 →
      calculate_payoff s ps ks prems pos2 avg = .ok c2 → c1 = c2 := by
  intro ps pos1 pos2 c1 c2 h1 h2
  unfold calculate_payoff at h1 h2
  rcases hc : checkLegs s ks with e | u <;> simp only [hc] at h1 h2
  · exact absurd h1 (by simp)
  · rcases hl1 : legLoop ks prems pos1 with e1 | b1 <;> simp only [hl1] at h1
    · exact absurd h1 (by simp)
    · rcases hl2 : legLoop ks prems pos2 with e2 | b2 <;> simp only [hl2] at h2
      · exact absurd h2 (by simp)
      · rw [hconst b1 b2] at h1
        rcases hb : branchFun s ks prems avg b2 with e | f <;>
          simp only [hb, Except.ok.injEq] at h1 h2
        · exact absurd h1 (by simp)
        · rw [← h1, ← h2]

/-- C10 (amended): for every strategy with a dedicated branch — the nine
pure-option branch strategies with any average stock price, and the
three stock-linked strategies when one is supplied — two calls of
`calculate_payoff` identical except for the positions argument return
equal curves whenever both succeed (the per-leg accumulation over
positions is overwritten by the branch formula; positions can still
differ observably through the loop's `IndexError`s). -/
theorem C10_amended_positions_independence :
    (∀ (s : String), s ∈ (["Iron Condor", "Bull Put Spread", "Bear Call Spread",
        "Long Straddle", "Short Straddle", "Long Strangle", "Short Strangle",
        "Butterfly Spread", "Iron Butterfly"] : List String) →
      ∀ (ps ks prems : List ℚ) (avg : Option ℚ) (pos1 pos2 : List String) (c1 c2 : List ℚ),
        calculate_payoff s ps ks prems pos1 avg = .ok c1 →
        calculate_payoff s ps ks prems pos2 avg = .ok c2 → c1 = c2) ∧
    (∀ (s : String), s ∈ (["Covered Call", "Protective Put", "Collar"] : List String) →
      ∀ (a : ℚ) (ps ks prems : List ℚ) (pos1 pos2 : List String) (c1 c2 : List ℚ),
        calculate_payoff s ps ks prems pos1 (some a) = .ok c1 →
        calculate_payoff s ps ks prems pos2 (some a) = .ok c2 → c1 = c2) := by
  constructor
  · intro s hs ps ks prems avg
    simp only [List.mem_cons, List.not_mem_nil, or_false] at hs
    rcases hs with h | h | h | h | h | h | h | h | h <;> subst h
    · exact payoff_ok_of_branch_const _ ks prems avg
        (branchFun_const_iron_condor ks prems avg) ps
    · exact payoff_ok_of_branch_const _ ks prems avg
        (branchFun_const_bull_put ks prems avg) ps
    · exact payoff_ok_of_branch_const _ ks prems avg
        (branchFun_const_bear_call ks prems avg) ps
    · exact payoff_ok_of_branch_const _ ks prems avg
        (branchFun_const_long_straddle ks prems avg) ps
    · exact payoff_ok_of_branch_const _ ks prems avg
        (branchFun_const_short_straddle ks prems avg) ps
    · exact payoff_ok_of_branch_const _ ks prems avg
        (branchFun_const_long_strangle ks prems avg) ps
    · exact payoff_ok_of_branch_const _ ks prems avg
        (branchFun_const_short_strangle ks prems avg) ps
    · exact payoff_ok_of_branch_const _ ks prems avg
        (branchFun_const_butterfly ks prems avg) ps
    · exact payoff_ok_of_branch_const _ ks prems avg
        (branchFun_const_iron_butterfly ks prems avg) ps
  · intro s hs a ps ks prems
    simp only [List.mem_cons, List.not_mem_nil, or_false] at hs
    rcases hs with h | h | h <;> subst h
    · exact payoff_ok_of_branch_const _ ks prems (some a)
        (branchFun_const_covered_call ks prems a) ps
    · exact payoff_ok_of_branch_const _ ks prems (some a)
        (branchFun_const_protective_put ks prems a) ps
    · exact payoff_ok_of_branch_const _ ks prems (some a)
        (branchFun_const_collar ks prems a) ps

/-- C10 witness: two Iron Condor calls differing only in their positions
lists both return the curve [2]. -/
theorem C10_amended_positions_independence_witness : ([2] : List ℚ) = [2] :=
  C10_amended_positions_independence.1 "Iron Condor" (by decide)
    [100] [110, 115, 90, 85] [2, 1, 2, 1] none
    ["Call", "Call", "Put", "Put"] ["Put", "Put", "Call", "Call"] [2] [2]
    (by simp [calculate_payoff, checkLegs_iron_condor4, branchFun_iron_condor, legLoop,
      legLoop.go]; norm_num)
    (by simp [calculate_payoff, checkLegs_iron_condor4, branchFun_iron_condor, legLoop,
      legLoop.go]; norm_num)

/-- C5 counterexample: the claim says two numeric break-even prices are
always returned in ascending order, but for Iron Butterfly with strikes
[90, 100, 100, 110] (long put, short put, short call, long call) and the
realistic net-credit premiums [1, 5, 5, 1] the solver returns
[108, 92], a descending pair. -/
theorem C5_counterexample :
    calculate_break_even "Iron Butterfly" [90, 100, 100, 110] [1, 5, 5, 1] none
      = .ok [.price 108, .price 92] ∧ ¬((108 : ℚ) ≤ 92) := by
  constructor
  · simp [calculate_break_even]
    norm_num
  · norm_num

def lenOk (r : Except Err (List BEEntry)) : Prop :=
  ∀ l, r = .ok l → l.length = 1 ∨ l.length = 2

lemma lenOk_ite (c : Prop) [Decidable c] (a b : Except Err (List BEEntry))
    (ha : lenOk a) (hb : lenOk b) : lenOk (if c then a else b) := by
  by_cases h : c
  · simpa [h] using ha
  · simpa [h] using hb

lemma lenOk_error (e : Err) : lenOk (.error e) := fun _ h => Except.noConfusion h

lemma lenOk_ok1 (x : BEEntry) : lenOk (.ok [x]) := by
  intro l h
  simp only [Except.ok.injEq] at h
  subst h
  simp

lemma lenOk_ok2 (x y : BEEntry) : lenOk (.ok [x, y]) := by
  intro l h
  simp only [Except.ok.injEq] at h
  subst h
  simp

/-- C5 (amended): whenever `calculate_break_even` returns without
raising it returns 1 or 2 entries (within the claimed 0-2); the
ascending order of a 2-entry numeric pair holds unconditionally for the
straddle, strangle (strikes in role order) and Collar branches, and for
Iron Condor, Butterfly Spread and Iron Butterfly only under a
non-negative net-credit/net-premium side condition — it can fail
otherwise (see the counterexample). -/
theorem C5_amended_solver_shape :
    (∀ (s : String) (ks prems : List ℚ) (avg : Option ℚ) (l : List BEEntry),
      calculate_break_even s ks prems avg = .ok l → l.length = 1 ∨ l.length = 2) ∧
    (∀ (K0 p0 p1 : ℚ) (ks prems : List ℚ) (avg : Option ℚ), 0 ≤ p0 → 0 ≤ p1 →
      calculate_break_even "Long Straddle" (K0 :: ks) (p0 :: p1 :: prems) avg
        = .ok [.price (K0 - (p0 + p1)), .price (K0 + (p0 + p1))] ∧
      calculate_break_even "Short Straddle" (K0 :: ks) (p0 :: p1 :: prems) avg
        = .ok [.price (K0 - (p0 + p1)), .price (K0 + (p0 + p1))] ∧
      K0 - (p0 + p1) ≤ K0 + (p0 + p1)) ∧
    (∀ (K0 K1 p0 p1 : ℚ) (ks prems : List ℚ) (avg : Option ℚ),
      K1 ≤ K0 → 0 ≤ p0 → 0 ≤ p1 →
      calculate_break_even "Long Strangle" (K0 :: K1 :: ks) (p0 :: p1 :: prems) avg
        = .ok [.price (K1 - (p0 + p1)), .price (K0 + (p0 + p1))] ∧
      calculate_break_even "Short Strangle" (K0 :: K1 :: ks) (p0 :: p1 :: prems) avg
        = .ok [.price (K1 - (p0 + p1)), .price (K0 + (p0 + p1))] ∧
      K1 - (p0 + p1) ≤ K0 + (p0 + p1)) ∧
    (∀ (a K0 K1 p0 p1 : ℚ) (ks prems : List ℚ), 0 ≤ p0 → 0 ≤ p1 →
      calculate_break_even "Collar" (K0 :: K1 :: ks) (p0 :: p1 :: prems) (some a)
        = .ok [.price (a - p0), .price (a + p1)] ∧ a - p0 ≤ a + p1) ∧
    (∀ (K0 K1 K2 K3 p0 p1 p2 p3 : ℚ) (ks prems : List ℚ) (avg : Option ℚ),
      K2 ≤ K0 → 0 ≤ (p0 + p2) - (p1 + p3) →
      calculate_break_even "Iron Condor" (K0 :: K1 :: K2 :: K3 :: ks)
          (p0 :: p1 :: p2 :: p3 :: prems) avg
        = .ok [.price (K2 - ((p0 + p2) - (p1 + p3))),
               .price (K0 + ((p0 + p2) - (p1 + p3)))] ∧
      K2 - ((p0 + p2) - (p1 + p3)) ≤ K0 + ((p0 + p2) - (p1 + p3))) ∧
    (∀ (K0 K1 K2 p0 p1 p2 : ℚ) (ks prems : List ℚ) (avg : Option ℚ),
      2 * (p0 - 2 * p1 + p2) ≤ K2 - K0 →
      calculate_break_even "Butterfly Spread" (K0 :: K1 :: K2 :: ks)
          (p0 :: p1 :: p2 :: prems) avg
        = .ok [.price (K0 + (p0 - 2 * p1 + p2)), .price (K2 - (p0 - 2 * p1 + p2))] ∧
      K0 + (p0 - 2 * p1 + p2) ≤ K2 - (p0 - 2 * p1 + p2)) ∧
    (∀ (K0 K1 K2 K3 p0 p1 p2 p3 : ℚ) (ks prems : List ℚ) (avg : Option ℚ),
      0 ≤ p0 - p1 - p2 + p3 →
      calculate_break_even "Iron Butterfly" (K0 :: K1 :: K2 :: K3 :: ks)
          (p0 :: p1 :: p2 :: p3 :: prems) avg
        = .ok [.price (K1 - (p0 - p1 - p2 + p3)), .price (K1 + (p0 - p1 - p2 + p3))] ∧
      K1 - (p0 - p1 - p2 + p3) ≤ K1 + (p0 - p1 - p2 + p3)) := by
  refine ⟨?_, ?_, ?_, ?_, ?_, ?_, ?_⟩
  · intro s ks prems avg l
    have main : lenOk (calculate_break_even s ks prems avg) := by
      rcases ks with _ | ⟨K0, _ | ⟨K1, _ | ⟨K2, _ | ⟨K3, ks⟩⟩⟩⟩ <;>
        rcases prems with _ | ⟨p0, _ | ⟨p1, _ | ⟨p2, _ | ⟨p3, prems⟩⟩⟩⟩ <;>
        rcases avg with _ | a <;>
        (unfold calculate_break_even
         repeat' apply lenOk_ite
         all_goals first
           | exact lenOk_error _
           | exact lenOk_ok1 _
           | exact lenOk_ok2 _ _)
    exact main l
  · intro K0 p0 p1 ks prems avg hp0 hp1
    exact ⟨rfl, rfl, by linarith⟩
  · intro K0 K1 p0 p1 ks prems avg hK hp0 hp1
    exact ⟨rfl, rfl, by linarith⟩
  · intro a K0 K1 p0 p1 ks prems hp0 hp1
    exact ⟨rfl, by linarith⟩
  · intro K0 K1 K2 K3 p0 p1 p2 p3 ks prems avg hK hnc
    exact ⟨rfl, by linarith⟩
  · intro K0 K1 K2 p0 p1 p2 ks prems avg hnp
    exact ⟨rfl, by linarith⟩
  · intro K0 K1 K2 K3 p0 p1 p2 p3 ks prems avg ht
    exact ⟨rfl, by linarith⟩

/-- C5 witness: the shape law at Long Call (one entry) and the
straddle ascending-order law at strike 100 and premiums 3 and 2. -/
theorem C5_amended_solver_shape_witness :
    (([BEEntry.price 105] : List BEEntry).length = 1
      ∨ ([BEEntry.price 105] : List BEEntry).length = 2) ∧
    ((100 : ℚ) - (3 + 2) ≤ 100 + (3 + 2)) :=
  ⟨C5_amended_solver_shape.1 "Long Call" [100] [5] none [.price 105]
      (by simp [calculate_break_even]; norm_num),
   (C5_amended_solver_shape.2.1 100 3 2 [] [] none (by norm_num) (by norm_num)).2.2⟩

end OptionTrading
